import Mathlib

/-!
Shallow embedding of the EVC hybrid chat core (repository DEMO-), covering:
- utils.py: lexicon scorer (simple_sentiment, volatility_hint) and clamp;
- evc_engine.py: EVCEngine with its perception and reflection updates and
  the derived phase classifier;
- reflection.py: the reflect scorer producing a 4-dimensional quality vector;
- web.py: the chat-turn handler's backend-failure path;
- enhanced_dual_ai.py: ConversationMemory (bounded deque window plus
  unbounded archive).

Real numbers of the Python source are modelled as exact rationals; Python
dictionaries with optional keys are modelled as structures of Option fields
read with defaults, mirroring dict.get(key, default).
-/

/-- Positive lexicon POS_WORDS from utils.py. -/
def POS_WORDS : List String :=
  ["ดีมาก","เยี่ยม","สุดยอด","ขอบคุณ","สวย","เก่ง","ถูกต้อง","ชัดเจน","แม่นยำ",
   "รัก","แนะนำ","ยินดี","ยอดเยี่ยม","เวิร์ก","เวิร์ค","เหมาะสม","ก้าวหน้า","สำเร็จ"]

/-- Negative lexicon NEG_WORDS from utils.py. -/
def NEG_WORDS : List String :=
  ["แย่","ไม่ดี","ผิด","พัง","โกรธ","กลัว","กังวล","ห่วย","งง","สับสน","ล้มเหลว",
   "ยาก","แย่มาก","ช้า","น่ากลัว","แย่สุดๆ"]

/-- Urgency lexicon VOL_WORDS from utils.py. -/
def VOL_WORDS : List String :=
  ["เร่งด่วน","ด่วน","วิกฤต","ผันผวน","แรง","แรงมาก","สวิง","ผันผวนสูง"]

/-- Python substring containment, w in t, over character lists. -/
def containsSeq (w : List Char) : List Char → Bool
  | [] => w.isEmpty
  | c :: rest => List.isPrefixOf w (c :: rest) || containsSeq w rest

/-- Python sum(1 for w in ws if w in t): number of lexicon words occurring in t. -/
def countMatches (ws : List String) (t : List Char) : ℕ :=
  (ws.filter (fun w => containsSeq w.data t)).length

/-- Characters of text.lower(); the lexicons are Thai (caseless), so ASCII
lowering is the only case Python's lower() exercises on them. -/
def lowerData (text : String) : List Char :=
  text.data.map Char.toLower

/-- Count of positive lexicon matches in the lowered text. -/
def posCount (text : String) : ℕ := countMatches POS_WORDS (lowerData text)

/-- Count of negative lexicon matches in the lowered text. -/
def negCount (text : String) : ℕ := countMatches NEG_WORDS (lowerData text)

/-- Count of urgency lexicon matches in the lowered text. -/
def volCount (text : String) : ℕ := countMatches VOL_WORDS (lowerData text)

/-- simple_sentiment from utils.py. -/
def simple_sentiment (text : String) : ℚ :=
  let pos := posCount text
  let neg := negCount text
  if pos = 0 ∧ neg = 0 then 0
  else max (-1) (min 1 (((pos : ℚ) - (neg : ℚ)) / ((max 1 (pos + neg) : ℕ) : ℚ)))

/-- volatility_hint from utils.py. -/
def volatility_hint (text : String) : ℚ :=
  min 1 ((volCount text : ℚ) / 3)

/-- clamp from utils.py: max(lo, min(hi, v)). -/
def clamp (v lo hi : ℚ) : ℚ := max lo (min hi v)

/-- The evc section of the configuration dictionary; each key optional,
read with the defaults of EVCEngine.__init__ (evc_engine.py). -/
structure EVCRawConfig where
  E_init : Option ℚ
  loss : Option ℚ
  K : Option ℚ
  clamp_low : Option ℚ
  clamp_high : Option ℚ
  overheat_threshold : Option ℚ
  fear_threshold : Option ℚ
  cooldown_margin : Option ℚ
deriving DecidableEq

/-- Mutable state plus configured constants of EVCEngine (evc_engine.py). -/
structure EVCEngine where
  E : ℚ
  loss : ℚ
  K : ℚ
  clamp_low : ℚ
  clamp_high : ℚ
  overheat_th : ℚ
  fear_th : ℚ
  cooldown_m : ℚ
  stability : ℚ
deriving DecidableEq

/-- EVCEngine.__init__: read each key with its default; _stability starts at 0.5. -/
def EVCEngine.init (cfg : EVCRawConfig) : EVCEngine :=
  ⟨cfg.E_init.getD 0.5, cfg.loss.getD 0.02, cfg.K.getD 0.45,
   cfg.clamp_low.getD 0.0, cfg.clamp_high.getD 1.5,
   cfg.overheat_threshold.getD 1.1, cfg.fear_threshold.getD 0.25,
   cfg.cooldown_margin.getD 0.05, 0.5⟩

/-- EVCEngine._phase: first-match-wins threshold chain over the current E. -/
def EVCEngine.phase (e : EVCEngine) : String :=
  if e.E ≥ e.overheat_th then "overheat"
  else if e.E ≤ e.fear_th then "fear"
  else if |e.E - 0.5| ≤ e.cooldown_m then "cooldown"
  else if e.E > 0.55 then "focus"
  else "calm"

/-- EVCEngine.update_from_text: the perception update. Only E changes. -/
def EVCEngine.update_from_text (e : EVCEngine) (user_text : String) : EVCEngine :=
  let sent := simple_sentiment user_text
  let vol := volatility_hint user_text
  let dE := e.K * (0.25 * sent + 0.35 * vol)
  { e with E := clamp (e.E + dE - e.loss) e.clamp_low e.clamp_high }

/-- The reflection vector as received by update_from_reflection: a Python
dict whose four keys may each be missing. -/
structure ReflectionInput where
  coherence : Option ℚ
  toxicity : Option ℚ
  satisfaction : Option ℚ
  verbosity : Option ℚ
deriving DecidableEq

/-- EVCEngine.update_from_reflection: missing fields default to the neutral
values, E is clamped to the configured bounds, and K is clamped to the
hardcoded interval [0.25, 0.75]. -/
def EVCEngine.update_from_reflection (e : EVCEngine) (vector : ReflectionInput) : EVCEngine :=
  let coh := vector.coherence.getD 0.6
  let tox := vector.toxicity.getD 0.0
  let sat := vector.satisfaction.getD 0.5
  let verb := vector.verbosity.getD 0.5
  let dE := e.K * (-0.3 * coh + 0.4 * tox - 0.2 * sat + 0.05 * verb)
  let E2 := clamp (e.E + dE - 0.5 * e.loss) e.clamp_low e.clamp_high
  let target_stability := 1.0 - min 1.0 |E2 - 0.5|
  let stab2 := 0.8 * e.stability + 0.2 * target_stability
  let K2 := clamp (e.K * (0.98 + 0.04 * stab2)) 0.25 0.75
  { e with E := E2, K := K2, stability := stab2 }

/-- One update of the engine: perception (update_from_text) or reflection
(update_from_reflection). -/
inductive UpdateStep where
  | perception (text : String)
  | reflection (v : ReflectionInput)

/-- Apply one update step to the engine. -/
def applyStep (e : EVCEngine) : UpdateStep → EVCEngine
  | .perception t => e.update_from_text t
  | .reflection v => e.update_from_reflection v

/-- Apply a sequence of update steps, first to last. -/
def applySteps (e : EVCEngine) (steps : List UpdateStep) : EVCEngine :=
  steps.foldl applyStep e

/-- Banned word list toxic_words from reflection.py. -/
def TOXIC_WORDS : List String := ["โง่","เกลียด","สวะ","ชัง","เถียง","หยาบคาย"]

/-- Python str.count scan once a match was consumed: while skip is positive
the scanner is inside an already-counted occurrence. -/
def pyCountAux (pat : List Char) : ℕ → List Char → ℕ
  | _, [] => 0
  | s + 1, _ :: rest => pyCountAux pat s rest
  | 0, c :: rest =>
    if List.isPrefixOf pat (c :: rest) then 1 + pyCountAux pat (pat.length - 1) rest
    else pyCountAux pat 0 rest

/-- Python s.count(pat): non-overlapping occurrences, left to right; the
empty pattern counts len(s)+1 occurrences. -/
def pyCount (s pat : String) : ℕ :=
  if pat.data.isEmpty then s.data.length + 1 else pyCountAux pat.data 0 s.data

/-- Whitespace characters recognised by Python str.split() on ASCII input. -/
def pyIsSpace (c : Char) : Bool :=
  c = ' ' || c = '\t' || c = '\n' || c = '\r' || c = '\x0b' || c = '\x0c'

/-- Accumulator pass of Python str.split(): split on whitespace runs,
discarding empty pieces; cur holds the current token reversed. -/
def pySplitAux (cur : List Char) : List Char → List String
  | [] => if cur.isEmpty then [] else [String.mk cur.reverse]
  | c :: rest =>
    if pyIsSpace c then
      if cur.isEmpty then pySplitAux [] rest
      else String.mk cur.reverse :: pySplitAux [] rest
    else pySplitAux (c :: cur) rest

/-- Python text.split() with no separator argument. -/
def pySplit (s : String) : List String := pySplitAux [] s.data

/-- Python len(set(xs) & set(ys)) for token lists. -/
def interCard (xs ys : List String) : ℕ :=
  (xs.dedup.filter (fun w => ys.contains w)).length

/-- The reflection scorer's output vector: all four coordinates present. -/
structure ReflectionVector where
  coherence : ℚ
  toxicity : ℚ
  satisfaction : ℚ
  verbosity : ℚ
deriving DecidableEq

/-- Inner helper c01 of reflect (reflection.py): clamp to [0, 1]. -/
def c01 (x : ℚ) : ℚ := max 0 (min 1 x)

/-- reflect from reflection.py; 1e-6 is the exact rational 1/1000000. -/
def reflect (user_input draft_answer : String) : ReflectionVector :=
  let coherence := min 1.0 ((draft_answer.data.length : ℚ) / 300 +
    0.2 * ((pyCount draft_answer "- " : ℚ) + (pyCount draft_answer "\n\n" : ℚ)))
  let toxicity : ℚ :=
    if TOXIC_WORDS.any (fun w => containsSeq w.data draft_answer.data) then 1.0 else 0.0
  let satisfaction := min 1.0 ((interCard (pySplit user_input) (pySplit draft_answer) : ℚ) /
    (((pySplit user_input).dedup.length : ℚ) + 1e-6) + 0.2)
  let verbosity := min 1.0 ((draft_answer.data.length : ℚ) / 800)
  ⟨c01 coherence, c01 toxicity, c01 satisfaction, c01 verbosity⟩

/-- A reflect result fed back to update_from_reflection: every key present. -/
def toRefInput (v : ReflectionVector) : ReflectionInput :=
  ⟨some v.coherence, some v.toxicity, some v.satisfaction, some v.verbosity⟩

/-- Python s.startswith(p). -/
def pyStartsWith (s p : String) : Bool := List.isPrefixOf p.data s.data

/-- The canned apology substituted by web.py when the backend reply carries
the failure marker. -/
def fallbackReply : String := "ขออภัยค่ะ ระบบมีปัญหาชั่วคราว กรุณาลองใหม่อีกครั้ง"

/-- The conventional failure marker prefix produced by
LLMCore._fallback_response (core_llm.py) and tested by web.py. -/
def failureMarker : String := "⚠️"

/-- The chat form submit handler of web.py, from the perception update to the
reflection update: raw_answer stands for the collaborator's reply (the LLM
call itself is external I/O). When raw_answer starts with the failure marker
the canned fallback reply is substituted, and the reflection update runs on
reflect(user_input, answer) either way. Returns the updated engine and the
answer shown to the user. -/
def handleChatTurn (e : EVCEngine) (user_input raw_answer : String) : EVCEngine × String :=
  let e1 := e.update_from_text user_input
  let answer := if pyStartsWith raw_answer failureMarker then fallbackReply else raw_answer
  let rvec := reflect user_input answer
  (e1.update_from_reflection (toRefInput rvec), answer)

/-- A stored turn of ConversationMemory (enhanced_dual_ai.py). The
evc_state dict is kept abstract as the E, K and phase it carries. -/
structure Turn where
  timestamp : String
  speaker : String
  message : String
  response : String
  evcE : ℚ
  evcK : ℚ
  evcPhase : String
deriving DecidableEq

/-- ConversationMemory: turns is the deque with maxlen max_turns,
full_history the unbounded archive. -/
structure ConversationMemory where
  max_turns : ℕ
  turns : List Turn
  full_history : List Turn
  summary : String
  key_points : List String
deriving DecidableEq

/-- ConversationMemory.__init__. -/
def ConversationMemory.init (max_turns : ℕ) : ConversationMemory :=
  ⟨max_turns, [], [], "", []⟩

/-- Appending to a collections.deque with maxlen: evict from the left when
the capacity is exceeded. -/
def dequeAppend (maxlen : ℕ) (l : List Turn) (t : Turn) : List Turn :=
  let l2 := l ++ [t]
  l2.drop (l2.length - maxlen)

/-- ConversationMemory.add_turn: push the turn onto the bounded deque and
onto the archive. -/
def ConversationMemory.add_turn (m : ConversationMemory) (t : Turn) : ConversationMemory :=
  { m with turns := dequeAppend m.max_turns m.turns t,
           full_history := m.full_history ++ [t] }

/-- Append a whole list of turns in order via add_turn. -/
def ConversationMemory.addAll (m : ConversationMemory) (ts : List Turn) : ConversationMemory :=
  ts.foldl ConversationMemory.add_turn m

/-- A dynamically-typed Python value, as far as the lexicon scorer can
observe it: the scorer is only passed strings or non-string junk. -/
inductive PyVal where
  | str (s : String)
  | pyNone
  | int (n : ℤ)
  | listv (l : List PyVal)

/-- Whether a PyVal is a Python str. -/
def PyVal.isStr : PyVal → Bool
  | .str _ => true
  | _ => false

/-- Calling simple_sentiment on a dynamically-typed argument: the first
statement text.lower() raises AttributeError unless the argument is a str. -/
def simple_sentiment_dyn : PyVal → Except String ℚ
  | .str s => .ok (simple_sentiment s)
  | _ => .error "AttributeError"

/-- Calling volatility_hint on a dynamically-typed argument. -/
def volatility_hint_dyn : PyVal → Except String ℚ
  | .str s => .ok (volatility_hint s)
  | _ => .error "AttributeError"

/-- Phase classifier written from the specification text: the ordered list of
threshold rules with first-match-wins priority, as a pure function of E and
the configured thresholds. -/
def phase_spec (E overheat_threshold fear_threshold cooldown_margin : ℚ) : String :=
  if E ≥ overheat_threshold then "overheat"
  else if E ≤ fear_threshold then "fear"
  else if |E - 0.5| ≤ cooldown_margin then "cooldown"
  else if E > 0.55 then "focus"
  else "calm"

/-- A configuration dictionary with every key absent: every engine parameter
takes its documented default. -/
def defaultRaw : EVCRawConfig := ⟨none, none, none, none, none, none, none, none⟩

/-- The engine created from the all-defaults configuration. -/
def defaultEngine : EVCEngine := EVCEngine.init defaultRaw

/-- The engine with its energy overwritten, for probing the classifier. -/
def withE (e : EVCEngine) (x : ℚ) : EVCEngine := { e with E := x }

/-- A valid configuration in the sense of the specification data model: the
initial E lies between the configured clamp bounds and the initial K lies in
the K interval [0.25, 0.75]. -/
def ValidConfig (cfg : EVCRawConfig) : Prop :=
  cfg.clamp_low.getD 0.0 ≤ cfg.clamp_high.getD 1.5
  ∧ cfg.clamp_low.getD 0.0 ≤ cfg.E_init.getD 0.5
  ∧ cfg.E_init.getD 0.5 ≤ cfg.clamp_high.getD 1.5
  ∧ 0.25 ≤ cfg.K.getD 0.45 ∧ cfg.K.getD 0.45 ≤ 0.75

/-- Engine invariant maintained by both update operations. -/
def EngineInv (e : EVCEngine) : Prop :=
  e.clamp_low ≤ e.clamp_high
  ∧ e.clamp_low ≤ e.E ∧ e.E ≤ e.clamp_high
  ∧ 0.25 ≤ e.K ∧ e.K ≤ 0.75

/-- The suffix of the log a deque of capacity N retains. -/
def lastWindow (N : ℕ) (l : List Turn) : List Turn := l.drop (l.length - N)

/-- Sample turn for concrete witnesses. -/
def turnA : Turn := ⟨"t1", "A", "m1", "r1", 0.5, 0.45, "calm"⟩

/-- Sample turn for concrete witnesses. -/
def turnB : Turn := ⟨"t2", "B", "m2", "r2", 0.6, 0.45, "focus"⟩

/-- Sample turn for concrete witnesses. -/
def turnC : Turn := ⟨"t3", "A", "m3", "r3", 0.4, 0.45, "calm"⟩

/-! Helper lemmas about clamp. -/

lemma le_clamp (v lo hi : ℚ) : lo ≤ clamp v lo hi := le_max_left _ _

lemma clamp_le (v lo hi : ℚ) (h : lo ≤ hi) : clamp v lo hi ≤ hi :=
  max_le h (min_le_left _ _)

/-- C2: The phase is a pure function of E and the configured thresholds with
first-match-wins priority (overheat, fear, cooldown, focus, calm in that
order), and with the default thresholds E=1.15 gives overheat, E=0.20 gives
fear, E=0.50 gives cooldown, E=0.60 gives focus and E=0.40 gives calm. -/
theorem phase_first_match_priority :
    (∀ e : EVCEngine, e.phase = phase_spec e.E e.overheat_th e.fear_th e.cooldown_m)
  ∧ (withE defaultEngine 1.15).phase = "overheat"
  ∧ (withE defaultEngine 0.20).phase = "fear"
  ∧ (withE defaultEngine 0.50).phase = "cooldown"
  ∧ (withE defaultEngine 0.60).phase = "focus"
  ∧ (withE defaultEngine 0.40).phase = "calm" := by
  refine ⟨fun e => rfl, ?_, ?_, ?_, ?_, ?_⟩ <;>
    norm_num [EVCEngine.phase, withE, defaultEngine, defaultRaw, EVCEngine.init,
      Option.getD, abs_le, abs_sub_le_iff]

/-- C3: update_from_reflection computes exactly the documented formulas: the
reflection-weighted dE, the clamped new E, the smoothed stability and the
clamped new K, in that dependency order. -/
theorem update_from_reflection_formula (e : EVCEngine) (coh tox sat verb : ℚ) :
    let dE := e.K * (-0.3 * coh + 0.4 * tox - 0.2 * sat + 0.05 * verb)
    let E_new := clamp (e.E + dE - 0.5 * e.loss) e.clamp_low e.clamp_high
    let target_stability := 1.0 - min 1.0 |E_new - 0.5|
    let stability_new := 0.8 * e.stability + 0.2 * target_stability
    let K_new := clamp (e.K * (0.98 + 0.04 * stability_new)) 0.25 0.75
    e.update_from_reflection ⟨some coh, some tox, some sat, some verb⟩ =
      { e with E := E_new, K := K_new, stability := stability_new } := rfl

/-- C5: update_from_reflection reads any missing field of its input as the
fixed neutral default (coherence 0.6, toxicity 0, satisfaction 0.5,
verbosity 0.5); it is total on arbitrary, even out-of-range, inputs, and the
resulting E and K are clamped into their intervals rather than rejected. -/
theorem update_from_reflection_defaults_total (e : EVCEngine) (v : ReflectionInput)
    (h : e.clamp_low ≤ e.clamp_high) :
    e.update_from_reflection v = e.update_from_reflection
        ⟨some (v.coherence.getD 0.6), some (v.toxicity.getD 0.0),
         some (v.satisfaction.getD 0.5), some (v.verbosity.getD 0.5)⟩
  ∧ e.clamp_low ≤ (e.update_from_reflection v).E
  ∧ (e.update_from_reflection v).E ≤ e.clamp_high
  ∧ 0.25 ≤ (e.update_from_reflection v).K
  ∧ (e.update_from_reflection v).K ≤ 0.75 :=
  ⟨rfl, le_clamp _ _ _, clamp_le _ _ _ h, le_clamp _ _ _, clamp_le _ _ _ (by norm_num)⟩

/-- Witness for C5 at a concrete engine and an out-of-range, partly missing
vector. -/
theorem update_from_reflection_defaults_total_w :
    defaultEngine.clamp_low ≤ defaultEngine.clamp_high
  ∧ 0.25 ≤ (defaultEngine.update_from_reflection ⟨some 5, none, some (-3), none⟩).K :=
  ⟨by norm_num [defaultEngine, defaultRaw, EVCEngine.init, Option.getD],
   (update_from_reflection_defaults_total defaultEngine ⟨some 5, none, some (-3), none⟩
     (by norm_num [defaultEngine, defaultRaw, EVCEngine.init, Option.getD])).2.2.2.1⟩

/-- C6: the perception update changes only E: K, the stability accumulator
and every configured constant are unchanged, so a turn whose reflection step
is skipped leaves K at its pre-turn value. -/
theorem update_from_text_changes_only_E (e : EVCEngine) (t : String) :
    (e.update_from_text t).K = e.K
  ∧ (e.update_from_text t).stability = e.stability
  ∧ (e.update_from_text t).loss = e.loss
  ∧ (e.update_from_text t).clamp_low = e.clamp_low
  ∧ (e.update_from_text t).clamp_high = e.clamp_high
  ∧ (e.update_from_text t).overheat_th = e.overheat_th
  ∧ (e.update_from_text t).fear_th = e.fear_th
  ∧ (e.update_from_text t).cooldown_m = e.cooldown_m :=
  ⟨rfl, rfl, rfl, rfl, rfl, rfl, rfl, rfl⟩

/-- C10: after any reflection update K lies in the hardcoded interval
[0.25, 0.75], whatever the configuration and the pre-update K (in particular
a K initialized outside the interval is forced into it by the first
reflection update). -/
theorem reflection_K_hardcoded_bounds (e : EVCEngine) (v : ReflectionInput) :
    0.25 ≤ (e.update_from_reflection v).K ∧ (e.update_from_reflection v).K ≤ 0.75 :=
  ⟨le_clamp _ _ _, clamp_le _ _ _ (by norm_num)⟩

/-! Invariant preservation for C1. -/

lemma applyStep_inv (e : EVCEngine) (s : UpdateStep) (h : EngineInv e) :
    EngineInv (applyStep e s) := by
  obtain ⟨h1, _, _, h4, h5⟩ := h
  cases s with
  | perception t =>
    exact ⟨h1, le_clamp _ _ _, clamp_le _ _ _ h1, h4, h5⟩
  | reflection v =>
    exact ⟨h1, le_clamp _ _ _, clamp_le _ _ _ h1, le_clamp _ _ _, clamp_le _ _ _ (by norm_num)⟩

lemma applySteps_inv (steps : List UpdateStep) :
    ∀ e : EVCEngine, EngineInv e → EngineInv (applySteps e steps) := by
  induction steps with
  | nil => exact fun e h => h
  | cons s rest ih => exact fun e h => ih (applyStep e s) (applyStep_inv e s h)

lemma applySteps_config (steps : List UpdateStep) :
    ∀ e : EVCEngine, (applySteps e steps).clamp_low = e.clamp_low
      ∧ (applySteps e steps).clamp_high = e.clamp_high := by
  induction steps with
  | nil => exact fun e => ⟨rfl, rfl⟩
  | cons s rest ih =>
    intro e
    have hs : (applyStep e s).clamp_low = e.clamp_low
        ∧ (applyStep e s).clamp_high = e.clamp_high := by
      cases s <;> exact ⟨rfl, rfl⟩
    have hr := ih (applyStep e s)
    exact ⟨hr.1.trans hs.1, hr.2.trans hs.2⟩

lemma init_inv (cfg : EVCRawConfig) (h : ValidConfig cfg) :
    EngineInv (EVCEngine.init cfg) := by
  obtain ⟨h1, h2, h3, h4, h5⟩ := h
  exact ⟨h1, h2, h3, h4, h5⟩

/-- C1: starting from any valid configuration, after any sequence of
perception and reflection updates E lies within the configured clamp bounds
and K lies within the K interval [0.25, 0.75]. -/
theorem clamping_invariant (cfg : EVCRawConfig) (steps : List UpdateStep)
    (h : ValidConfig cfg) :
    (cfg.clamp_low.getD 0.0 ≤ (applySteps (EVCEngine.init cfg) steps).E
      ∧ (applySteps (EVCEngine.init cfg) steps).E ≤ cfg.clamp_high.getD 1.5)
  ∧ (0.25 ≤ (applySteps (EVCEngine.init cfg) steps).K
      ∧ (applySteps (EVCEngine.init cfg) steps).K ≤ 0.75) := by
  have hinv := applySteps_inv steps (EVCEngine.init cfg) (init_inv cfg h)
  have hcfg := applySteps_config steps (EVCEngine.init cfg)
  obtain ⟨_, hE1, hE2, hK1, hK2⟩ := hinv
  rw [hcfg.1, hcfg.2] at *
  exact ⟨⟨hE1, hE2⟩, hK1, hK2⟩

/-- Witness for C1: the default configuration is valid and the bounds hold
after a concrete perception update followed by a reflection update. -/
theorem clamping_invariant_w :
    ValidConfig defaultRaw
  ∧ ((defaultRaw.clamp_low.getD 0.0 ≤ (applySteps (EVCEngine.init defaultRaw)
        [UpdateStep.perception "hi", UpdateStep.reflection ⟨some 2, none, none, none⟩]).E
      ∧ (applySteps (EVCEngine.init defaultRaw)
          [UpdateStep.perception "hi", UpdateStep.reflection ⟨some 2, none, none, none⟩]).E
        ≤ defaultRaw.clamp_high.getD 1.5)
    ∧ (0.25 ≤ (applySteps (EVCEngine.init defaultRaw)
          [UpdateStep.perception "hi", UpdateStep.reflection ⟨some 2, none, none, none⟩]).K
      ∧ (applySteps (EVCEngine.init defaultRaw)
          [UpdateStep.perception "hi", UpdateStep.reflection ⟨some 2, none, none, none⟩]).K
        ≤ 0.75)) :=
  ⟨by norm_num [ValidConfig, defaultRaw, Option.getD],
   clamping_invariant defaultRaw
     [UpdateStep.perception "hi", UpdateStep.reflection ⟨some 2, none, none, none⟩]
     (by norm_num [ValidConfig, defaultRaw, Option.getD])⟩

/-- C7: the sentiment is 0 exactly on texts with no lexicon match, otherwise
it is (pos - neg)/(pos + neg); it is 1 when only positive words match, -1
when only negative words match, and always lies in [-1, 1]. -/
theorem sentiment_formula (text : String) :
    (posCount text = 0 ∧ negCount text = 0 → simple_sentiment text = 0)
  ∧ (¬(posCount text = 0 ∧ negCount text = 0) →
      simple_sentiment text =
        ((posCount text : ℚ) - (negCount text : ℚ)) /
          ((posCount text : ℚ) + (negCount text : ℚ)))
  ∧ (posCount text ≠ 0 ∧ negCount text = 0 → simple_sentiment text = 1)
  ∧ (posCount text = 0 ∧ negCount text ≠ 0 → simple_sentiment text = -1)
  ∧ -1 ≤ simple_sentiment text ∧ simple_sentiment text ≤ 1 := by
  by_cases h : posCount text = 0 ∧ negCount text = 0
  · have h0 : simple_sentiment text = 0 := by
      simp only [simple_sentiment, if_pos h]
    refine ⟨fun _ => h0, fun hc => absurd h hc, fun hc => absurd h.1 hc.1,
      fun hc => absurd h.2 hc.2, ?_, ?_⟩ <;> rw [h0] <;> norm_num
  · have hpn : 1 ≤ posCount text + negCount text := by omega
    have hd : (0 : ℚ) < (posCount text : ℚ) + (negCount text : ℚ) := by
      have : (0 : ℕ) < posCount text + negCount text := hpn
      exact_mod_cast this
    have hle : ((posCount text : ℚ) - (negCount text : ℚ)) /
        ((posCount text : ℚ) + (negCount text : ℚ)) ≤ 1 := by
      rw [div_le_one hd]
      have := (negCount text).cast_nonneg (α := ℚ)
      linarith
    have hge : (-1 : ℚ) ≤ ((posCount text : ℚ) - (negCount text : ℚ)) /
        ((posCount text : ℚ) + (negCount text : ℚ)) := by
      rw [le_div_iff₀ hd]
      have := (posCount text).cast_nonneg (α := ℚ)
      linarith
    have hmain : simple_sentiment text =
        ((posCount text : ℚ) - (negCount text : ℚ)) /
          ((posCount text : ℚ) + (negCount text : ℚ)) := by
      simp only [simple_sentiment, if_neg h, Nat.max_eq_right hpn]
      push_cast
      rw [min_eq_right hle, max_eq_right hge]
    refine ⟨fun hc => absurd hc h, fun _ => hmain, ?_, ?_, ?_, ?_⟩
    · rintro ⟨hp, hn⟩
      rw [hmain, hn]
      have hp' : (posCount text : ℚ) ≠ 0 := Nat.cast_ne_zero.mpr hp
      simp [div_self hp']
    · rintro ⟨hp, hn⟩
      rw [hmain, hp]
      have hn' : (negCount text : ℚ) ≠ 0 := Nat.cast_ne_zero.mpr hn
      simp [neg_div, div_self hn']
    · rw [hmain]; exact hge
    · rw [hmain]; exact hle

/-- Witness for C7 at three concrete texts: no match, only a positive match,
only a negative match. -/
theorem sentiment_formula_w :
    simple_sentiment "abc" = 0 ∧ simple_sentiment "ขอบคุณ" = 1
  ∧ simple_sentiment "แย่" = -1 :=
  ⟨(sentiment_formula "abc").1 (by decide),
   (sentiment_formula "ขอบคุณ").2.2.1 ⟨by decide, by decide⟩,
   (sentiment_formula "แย่").2.2.2.1 ⟨by decide, by decide⟩⟩

/-! Deque window lemmas for C8. -/

lemma lastWindow_append (N : ℕ) (xs ys : List Turn) :
    lastWindow N (lastWindow N xs ++ ys) = lastWindow N (xs ++ ys) := by
  unfold lastWindow
  rcases le_or_lt xs.length N with h | h
  · rw [Nat.sub_eq_zero_of_le h, List.drop_zero]
  · rw [List.length_append, List.length_append, List.length_drop]
    have h1 : xs.length - (xs.length - N) = N := by omega
    rw [h1]
    have h2 : N + ys.length - N = ys.length := by omega
    rw [h2]
    rw [List.drop_append_eq_append_drop, List.drop_append_eq_append_drop,
      List.drop_drop, List.length_drop, h1]
    have h3 : xs.length - N + ys.length = xs.length + ys.length - N := by omega
    have h4 : xs.length + ys.length - N - xs.length = ys.length - N := by omega
    rw [h3, h4]

lemma addAll_spec (L : List Turn) :
    ∀ m : ConversationMemory, m.turns.length ≤ m.max_turns →
      (m.addAll L).turns = lastWindow m.max_turns (m.turns ++ L)
    ∧ (m.addAll L).full_history = m.full_history ++ L := by
  induction L with
  | nil =>
    intro m hm
    constructor
    · show m.turns = lastWindow m.max_turns (m.turns ++ [])
      rw [List.append_nil]
      unfold lastWindow
      rw [Nat.sub_eq_zero_of_le hm, List.drop_zero]
    · show m.full_history = m.full_history ++ []
      rw [List.append_nil]
  | cons t rest ih =>
    intro m hm
    have hstep : (m.add_turn t).turns = lastWindow m.max_turns (m.turns ++ [t]) := rfl
    have hlen : (m.add_turn t).turns.length ≤ (m.add_turn t).max_turns := by
      rw [hstep]
      show (lastWindow m.max_turns (m.turns ++ [t])).length ≤ m.max_turns
      unfold lastWindow
      rw [List.length_drop, List.length_append]
      omega
    have hr := ih (m.add_turn t) hlen
    constructor
    · show (ConversationMemory.addAll (m.add_turn t) rest).turns
        = lastWindow m.max_turns (m.turns ++ t :: rest)
      rw [hr.1, hstep]
      show lastWindow m.max_turns (lastWindow m.max_turns (m.turns ++ [t]) ++ rest)
        = lastWindow m.max_turns (m.turns ++ t :: rest)
      rw [lastWindow_append, List.append_assoc, List.singleton_append]
    · show (ConversationMemory.addAll (m.add_turn t) rest).full_history
        = m.full_history ++ t :: rest
      rw [hr.2]
      show (m.full_history ++ [t]) ++ rest = m.full_history ++ t :: rest
      rw [List.append_assoc, List.singleton_append]

/-- C8: appending N+1 turns to a fresh store of window capacity N leaves the
window holding exactly the most recent N turns and the archive holding all
N+1 turns, both in append order. -/
theorem conversation_window_archive (N : ℕ) (L : List Turn) (h : L.length = N + 1) :
    ((ConversationMemory.init N).addAll L).turns = L.drop 1
  ∧ ((ConversationMemory.init N).addAll L).full_history = L := by
  have hs := addAll_spec L (ConversationMemory.init N) (by simp [ConversationMemory.init])
  constructor
  · rw [hs.1]
    show lastWindow N ([] ++ L) = L.drop 1
    rw [List.nil_append]
    unfold lastWindow
    rw [h]
    congr 1
    omega
  · rw [hs.2]
    show [] ++ L = L
    rw [List.nil_append]

/-- Witness for C8 with capacity 2 and three concrete turns. -/
theorem conversation_window_archive_w :
    ([turnA, turnB, turnC] : List Turn).length = 2 + 1
  ∧ ((ConversationMemory.init 2).addAll [turnA, turnB, turnC]).turns
      = [turnA, turnB, turnC].drop 1
  ∧ ((ConversationMemory.init 2).addAll [turnA, turnB, turnC]).full_history
      = [turnA, turnB, turnC] :=
  ⟨rfl, conversation_window_archive 2 [turnA, turnB, turnC] rfl⟩

/-- C9 counterexample: on the non-text input None the scorer raises
AttributeError (text.lower() on a non-str) instead of returning the zero
scores of empty text. -/
theorem lexicon_nontext_counterexample :
    simple_sentiment_dyn PyVal.pyNone ≠ Except.ok 0
  ∧ volatility_hint_dyn PyVal.pyNone ≠ Except.ok 0
  ∧ simple_sentiment_dyn PyVal.pyNone = Except.error "AttributeError"
  ∧ volatility_hint_dyn PyVal.pyNone = Except.error "AttributeError" :=
  ⟨fun hc => Except.noConfusion hc, fun hc => Except.noConfusion hc, rfl, rfl⟩

/-- C9 amended: the scorer has no failure mode on text input, on which it is
total and pure; a non-text input is not treated as empty text but raises
AttributeError. -/
theorem lexicon_nontext_amended (v : PyVal) (h : v.isStr = false) :
    simple_sentiment_dyn v = Except.error "AttributeError"
  ∧ volatility_hint_dyn v = Except.error "AttributeError"
  ∧ ∀ s : String, simple_sentiment_dyn (PyVal.str s) = Except.ok (simple_sentiment s)
      ∧ volatility_hint_dyn (PyVal.str s) = Except.ok (volatility_hint s) := by
  cases v with
  | str s => exact absurd h (by simp [PyVal.isStr])
  | pyNone => exact ⟨rfl, rfl, fun s => ⟨rfl, rfl⟩⟩
  | int n => exact ⟨rfl, rfl, fun s => ⟨rfl, rfl⟩⟩
  | listv l => exact ⟨rfl, rfl, fun s => ⟨rfl, rfl⟩⟩

/-- Witness for the amended C9 at the concrete non-text input None. -/
theorem lexicon_nontext_amended_w :
    PyVal.isStr PyVal.pyNone = false
  ∧ simple_sentiment_dyn PyVal.pyNone = Except.error "AttributeError" :=
  ⟨rfl, (lexicon_nontext_amended PyVal.pyNone rfl).1⟩

/-- C4 counterexample: with the default engine, user input hi and a failed
backend reply, the handler does substitute the canned fallback reply, but the
turn's reflection update does not use the neutral defaults: the resulting E
differs from the E the neutral-defaults update would give. -/
theorem backend_fallback_counterexample :
    (handleChatTurn defaultEngine "hi" "⚠️ fail").2 = fallbackReply
  ∧ (handleChatTurn defaultEngine "hi" "⚠️ fail").1.E
      ≠ ((defaultEngine.update_from_text "hi").update_from_reflection
          ⟨some 0.6, some 0.0, some 0.5, some 0.5⟩).E := by
  have hsw : pyStartsWith "⚠️ fail" failureMarker = true := by decide
  have hturn : handleChatTurn defaultEngine "hi" "⚠️ fail"
      = ((defaultEngine.update_from_text "hi").update_from_reflection
          (toRefInput (reflect "hi" fallbackReply)), fallbackReply) := by
    simp [handleChatTurn, hsw]
  have hrefl : reflect "hi" fallbackReply = ⟨1/6, 0, 1/5, 1/16⟩ := by
    have hl : (fallbackReply.data.length : ℚ) = 50 := by norm_num [show fallbackReply.data.length = 50 from by decide]
    have hc1 : pyCount fallbackReply "- " = 0 := by decide
    have hc2 : pyCount fallbackReply "\n\n" = 0 := by decide
    have htox : TOXIC_WORDS.any (fun w => containsSeq w.data fallbackReply.data) = false := by decide
    have hint : interCard (pySplit "hi") (pySplit fallbackReply) = 0 := by decide
    have hded : (pySplit "hi").dedup.length = 1 := by decide
    simp only [reflect, hl, hc1, hc2, htox, hint, hded]
    norm_num [c01, min_def, max_def]
  have hs0 : simple_sentiment "hi" = 0 := by
    have hp : posCount "hi" = 0 := by decide
    have hn : negCount "hi" = 0 := by decide
    simp [simple_sentiment, hp, hn]
  have hv0 : volatility_hint "hi" = 0 := by
    have hv : volCount "hi" = 0 := by decide
    simp [volatility_hint, hv]
  have hE1 : (defaultEngine.update_from_text "hi").E = 12/25 := by
    simp only [EVCEngine.update_from_text, hs0, hv0]
    norm_num [clamp, min_def, max_def, defaultEngine, defaultRaw, EVCEngine.init, Option.getD]
  have hK1 : (defaultEngine.update_from_text "hi").K = 0.45 := rfl
  have hloss1 : (defaultEngine.update_from_text "hi").loss = 0.02 := rfl
  have hlo1 : (defaultEngine.update_from_text "hi").clamp_low = 0.0 := rfl
  have hhi1 : (defaultEngine.update_from_text "hi").clamp_high = 1.5 := rfl
  refine ⟨by rw [hturn], ?_⟩
  rw [hturn, hrefl]
  show ((defaultEngine.update_from_text "hi").update_from_reflection
      ⟨some (1/6), some 0, some (1/5), some (1/16)⟩).E ≠ _
  simp only [EVCEngine.update_from_reflection, Option.getD, toRefInput]
  rw [hE1, hK1, hloss1, hlo1, hhi1]
  norm_num [clamp, min_def, max_def]

/-- C4 amended: when the backend reply carries the failure marker, the
handler substitutes the canned fallback reply and the state updates still
occur, with the reflection vector computed by reflect from the user input
and the fallback reply (the fixed neutral defaults are a separate recovery
used only when the reflection computation itself fails). -/
theorem backend_fallback_amended (e : EVCEngine) (user raw : String)
    (h : pyStartsWith raw failureMarker = true) :
    handleChatTurn e user raw =
      ((e.update_from_text user).update_from_reflection
        (toRefInput (reflect user fallbackReply)), fallbackReply) := by
  simp [handleChatTurn, h]

/-- Witness for the amended C4 at a concrete failed backend reply. -/
theorem backend_fallback_amended_w :
    pyStartsWith "⚠️ down" failureMarker = true
  ∧ handleChatTurn defaultEngine "x" "⚠️ down" =
      ((defaultEngine.update_from_text "x").update_from_reflection
        (toRefInput (reflect "x" fallbackReply)), fallbackReply) :=
  ⟨by decide, backend_fallback_amended defaultEngine "x" "⚠️ down" (by decide)⟩
